import Mathlib

/-!
Verification of the transport/protocol core of the blender-mcp repository
(`src/blender_mcp/server.py`): the frame reader `BlenderConnection.receive_full_response`,
the dispatcher `BlenderConnection.send_command`, and the connection manager
`get_blender_connection`.

The embedding works at the byte level.  Bytes and Unicode code points are
modelled as `Nat`.  The Python calls `data.decode('utf-8')` and
`json.loads` / `json.dumps` from the standard library are modelled by
executable Lean functions (`utf8_decode`, `json_loads`, `json_dumps`)
that follow the semantics of CPython's `codecs` strict UTF-8 decoder and of
the `json` module with its default options (`ensure_ascii=True`,
separators `", "` and `": "`, `strict=True`).  Two deliberate restrictions
of the JSON model, noted where relevant: numeric literals are modelled as
arbitrary-precision integers (float syntax is not modelled), and an object
is modelled as the ordered list of its members as written (CPython's dict
last-wins overriding of duplicate keys is reflected in `member_lookup`).

The socket is modelled as the list of outcomes its successive `recv`
calls deliver within the 180 s deadline (`RecvEvent`); exhaustion of the
list models the deadline elapsing with no further data, i.e. a
`socket.timeout`.  Exceptions are modelled as explicit result values.
-/

mutual
/-- JSON value, as produced by `json.loads`: null, booleans, (integer)
numbers, strings (list of Unicode code points), arrays and objects.
Arrays and objects use the mutually inductive list types `JItems` and
`JMembers` so that all recursion over values is structural. -/
inductive JValue where
  | null : JValue
  | bool (b : Bool) : JValue
  | int (n : Int) : JValue
  | str (s : List Nat) : JValue
  | arr (items : JItems) : JValue
  | obj (members : JMembers) : JValue
deriving DecidableEq

/-- List of array elements. -/
inductive JItems where
  | nil : JItems
  | cons (v : JValue) (rest : JItems) : JItems
deriving DecidableEq

/-- List of object members (key, value), in document order. -/
inductive JMembers where
  | nil : JMembers
  | cons (k : List Nat) (v : JValue) (rest : JMembers) : JMembers
deriving DecidableEq
end

/-- Continuation byte test for UTF-8 (`0x80 ≤ b ≤ 0xBF`). -/
def utf8_cont (b : Nat) : Bool := 0x80 ≤ b && b ≤ 0xBF

/-- Decode one UTF-8 sequence from a lead byte and the following bytes,
per CPython's strict decoder: rejects overlong encodings, surrogates
(0xD800–0xDFFF), lead bytes above 0xF4, stray continuation bytes and
truncated sequences.  Returns the code point and the remaining bytes. -/
def utf8_step (b : Nat) (rest : List Nat) : Option (Nat × List Nat) :=
  if b < 0x80 then some (b, rest)
  else if 0xC2 ≤ b && b ≤ 0xDF then
    match rest with
    | b2 :: rest2 =>
      if utf8_cont b2 then some ((b - 0xC0) * 0x40 + (b2 - 0x80), rest2) else none
    | [] => none
  else if 0xE0 ≤ b && b ≤ 0xEF then
    match rest with
    | b2 :: b3 :: rest3 =>
      if ((if b = 0xE0 then 0xA0 else 0x80) ≤ b2 && b2 ≤ (if b = 0xED then 0x9F else 0xBF))
          && utf8_cont b3 then
        some ((b - 0xE0) * 0x1000 + (b2 - 0x80) * 0x40 + (b3 - 0x80), rest3)
      else none
    | _ => none
  else if 0xF0 ≤ b && b ≤ 0xF4 then
    match rest with
    | b2 :: b3 :: b4 :: rest4 =>
      if ((if b = 0xF0 then 0x90 else 0x80) ≤ b2 && b2 ≤ (if b = 0xF4 then 0x8F else 0xBF))
          && utf8_cont b3 && utf8_cont b4 then
        some ((b - 0xF0) * 0x40000 + (b2 - 0x80) * 0x1000 + (b3 - 0x80) * 0x40 + (b4 - 0x80),
          rest4)
      else none
    | _ => none
  else none

/-- Decode a whole byte list, one UTF-8 sequence at a time.  Each
sequence consumes at least one byte, so fuel equal to the byte count
never runs out. -/
def utf8_decode_go : Nat → List Nat → Option (List Nat)
  | _, [] => some []
  | 0, _ :: _ => none
  | f + 1, b :: rest =>
    match utf8_step b rest with
    | some (cp, rest2) => (utf8_decode_go f rest2).map (fun cs => cp :: cs)
    | none => none

/-- Strict UTF-8 decoding of a byte list into code points, following
CPython's `bytes.decode('utf-8')` with `errors='strict'`.  `none` models
a raised `UnicodeDecodeError`. -/
def utf8_decode (bytes : List Nat) : Option (List Nat) :=
  utf8_decode_go bytes.length bytes

/-- UTF-8 encoding of a list of code points, following `str.encode('utf-8')`. -/
def utf8_encode : List Nat → List Nat
  | [] => []
  | c :: rest =>
    (if c < 0x80 then [c]
     else if c < 0x800 then [0xC0 + c / 0x40, 0x80 + c % 0x40]
     else if c < 0x10000 then [0xE0 + c / 0x1000, 0x80 + c / 0x40 % 0x40, 0x80 + c % 0x40]
     else [0xF0 + c / 0x40000, 0x80 + c / 0x1000 % 0x40, 0x80 + c / 0x40 % 0x40, 0x80 + c % 0x40])
    ++ utf8_encode rest

/-- JSON whitespace, as skipped by CPython's `json` scanner: space, tab,
line feed, carriage return. -/
def is_ws (c : Nat) : Bool := c = 32 || c = 9 || c = 10 || c = 13

/-- Drop leading JSON whitespace. -/
def skip_ws (cs : List Nat) : List Nat := cs.dropWhile is_ws

/-- ASCII decimal digit test. -/
def is_digit (c : Nat) : Bool := 48 ≤ c && c ≤ 57

/-- Value of a hexadecimal digit code point, if it is one. -/
def hexv (c : Nat) : Option Nat :=
  if 48 ≤ c && c ≤ 57 then some (c - 48)
  else if 97 ≤ c && c ≤ 102 then some (c - 87)
  else if 65 ≤ c && c ≤ 70 then some (c - 55)
  else none

/-- Accumulate decimal digit code points into a number. -/
def digits_val : List Nat → Nat → Nat
  | [], acc => acc
  | d :: rest, acc => digits_val rest (acc * 10 + (d - 48))

/-- Parse the integer-part of a JSON number (`0` or a nonzero digit
followed by digits), per the `(0|[1-9]\d*)` production of CPython's
`json` NUMBER_RE.  A leading `0` is never followed by further digits. -/
def parse_digits : List Nat → Option (Nat × List Nat)
  | [] => none
  | c :: rest =>
    if c = 48 then some (0, rest)
    else if is_digit c then
      some (digits_val (rest.takeWhile is_digit) (c - 48), rest.dropWhile is_digit)
    else none

/-- Parse a JSON number with optional leading minus.  The fraction/exponent
productions of the JSON grammar are not modelled: numbers are modelled as
arbitrary-precision integers. -/
def parse_number (cs : List Nat) : Option (JValue × List Nat) :=
  match cs with
  | [] => none
  | c :: rest =>
    if c = 45 then
      match parse_digits rest with
      | some (n, r) => some (.int (-(n : Int)), r)
      | none => none
    else
      match parse_digits (c :: rest) with
      | some (n, r) => some (.int (n : Int), r)
      | none => none

mutual
/-- Parse the body of a JSON string after the opening quote, following the
CPython `json` decoder with `strict=True`: unescaped control characters
(below 0x20) are rejected; a backslash defers to the escape scanner.  One
unit of fuel is spent per consumed character, so fuel of at least the
input length plus one suffices wherever the function is used. -/
def parse_string : Nat → List Nat → Option (List Nat × List Nat)
  | 0, _ => none
  | _ + 1, [] => none
  | f + 1, c :: rest =>
    if c = 34 then some ([], rest)
    else if c = 92 then parse_escape f rest
    else if c < 32 then none
    else (parse_string f rest).map (fun p => (c :: p.1, p.2))

/-- Parse one string escape after the backslash: the escapes
`\" \\ \/ \b \f \n \r \t` and `\uXXXX`, where a `\uXXXX\uYYYY`
surrogate pair is combined into one code point (a lone surrogate is kept
as written), as in the CPython `json` decoder. -/
def parse_escape : Nat → List Nat → Option (List Nat × List Nat)
  | 0, _ => none
  | _ + 1, [] => none
  | f + 1, e :: rest2 =>
    if e = 34 then (parse_string f rest2).map (fun p => (34 :: p.1, p.2))
    else if e = 92 then (parse_string f rest2).map (fun p => (92 :: p.1, p.2))
    else if e = 47 then (parse_string f rest2).map (fun p => (47 :: p.1, p.2))
    else if e = 98 then (parse_string f rest2).map (fun p => (8 :: p.1, p.2))
    else if e = 102 then (parse_string f rest2).map (fun p => (12 :: p.1, p.2))
    else if e = 110 then (parse_string f rest2).map (fun p => (10 :: p.1, p.2))
    else if e = 114 then (parse_string f rest2).map (fun p => (13 :: p.1, p.2))
    else if e = 116 then (parse_string f rest2).map (fun p => (9 :: p.1, p.2))
    else if e = 117 then
      match rest2 with
      | h1 :: h2 :: h3 :: h4 :: rest3 =>
        match hexv h1, hexv h2, hexv h3, hexv h4 with
        | some a, some b, some c2, some d =>
          let cp := ((a * 16 + b) * 16 + c2) * 16 + d
          if 0xD800 ≤ cp && cp ≤ 0xDBFF then
            match rest3 with
            | 92 :: 117 :: g1 :: g2 :: g3 :: g4 :: rest4 =>
              match hexv g1, hexv g2, hexv g3, hexv g4 with
              | some a2, some b2, some c3, some d2 =>
                let lo := ((a2 * 16 + b2) * 16 + c3) * 16 + d2
                if 0xDC00 ≤ lo && lo ≤ 0xDFFF then
                  (parse_string f rest4).map
                    (fun p => ((0x10000 + (cp - 0xD800) * 0x400 + (lo - 0xDC00)) :: p.1, p.2))
                else (parse_string f rest3).map (fun p => (cp :: p.1, p.2))
              | _, _, _, _ => (parse_string f rest3).map (fun p => (cp :: p.1, p.2))
            | _ => (parse_string f rest3).map (fun p => (cp :: p.1, p.2))
          else (parse_string f rest3).map (fun p => (cp :: p.1, p.2))
        | _, _, _, _ => none
      | _ => none
    else none
end

mutual
/-- Recursive-descent JSON value scanner mirroring CPython's `json`
decoder on the modelled grammar.  Leading whitespace is skipped; literal
`true`/`false`/`null`, strings, numbers, arrays and objects are
recognised.  The fuel argument only bounds nesting: every recursive call
strictly decreases it, and `json_loads` supplies ample fuel. -/
def parse_value : Nat → List Nat → Option (JValue × List Nat)
  | 0, _ => none
  | f + 1, input =>
    match skip_ws input with
    | [] => none
    | c :: rest =>
      if c = 123 then
        match parse_object_first f rest with
        | some (ms, r) => some (.obj ms, r)
        | none => none
      else if c = 91 then
        match parse_array_first f rest with
        | some (items, r) => some (.arr items, r)
        | none => none
      else if c = 34 then
        match parse_string (rest.length + 1) rest with
        | some (s, r) => some (.str s, r)
        | none => none
      else if c = 116 then
        match rest with
        | 114 :: 117 :: 101 :: r => some (.bool true, r)
        | _ => none
      else if c = 102 then
        match rest with
        | 97 :: 108 :: 115 :: 101 :: r => some (.bool false, r)
        | _ => none
      else if c = 110 then
        match rest with
        | 117 :: 108 :: 108 :: r => some (.null, r)
        | _ => none
      else if c = 45 || is_digit c then parse_number (c :: rest)
      else none

/-- Parse array contents after the opening bracket: either an immediate
closing bracket or a first element followed by the comma-separated tail. -/
def parse_array_first : Nat → List Nat → Option (JItems × List Nat)
  | 0, _ => none
  | f + 1, input =>
    match skip_ws input with
    | 93 :: r => some (.nil, r)
    | s =>
      match parse_value f s with
      | some (v, r) =>
        match parse_array_tail f r with
        | some (items, r2) => some (.cons v items, r2)
        | none => none
      | none => none

/-- Parse the remainder of an array after one element: a comma and a
further element, or the closing bracket. -/
def parse_array_tail : Nat → List Nat → Option (JItems × List Nat)
  | 0, _ => none
  | f + 1, input =>
    match skip_ws input with
    | 44 :: r =>
      match parse_value f r with
      | some (v, r2) =>
        match parse_array_tail f r2 with
        | some (items, r3) => some (.cons v items, r3)
        | none => none
      | none => none
    | 93 :: r => some (.nil, r)
    | _ => none

/-- Parse object contents after the opening brace: either an immediate
closing brace or a first `"key": value` member followed by the tail. -/
def parse_object_first : Nat → List Nat → Option (JMembers × List Nat)
  | 0, _ => none
  | f + 1, input =>
    match skip_ws input with
    | 125 :: r => some (.nil, r)
    | 34 :: r =>
      match parse_string (r.length + 1) r with
      | some (k, r2) =>
        match skip_ws r2 with
        | 58 :: r3 =>
          match parse_value f r3 with
          | some (v, r4) =>
            match parse_object_tail f r4 with
            | some (ms, r5) => some (.cons k v ms, r5)
            | none => none
          | none => none
        | _ => none
      | none => none
    | _ => none

/-- Parse the remainder of an object after one member: a comma and a
further member, or the closing brace. -/
def parse_object_tail : Nat → List Nat → Option (JMembers × List Nat)
  | 0, _ => none
  | f + 1, input =>
    match skip_ws input with
    | 125 :: r => some (.nil, r)
    | 44 :: r =>
      match skip_ws r with
      | 34 :: r2 =>
        match parse_string (r2.length + 1) r2 with
        | some (k, r3) =>
          match skip_ws r3 with
          | 58 :: r4 =>
            match parse_value f r4 with
            | some (v, r5) =>
              match parse_object_tail f r5 with
              | some (ms, r6) => some (.cons k v ms, r6)
              | none => none
            | none => none
          | _ => none
        | none => none
      | _ => none
    | _ => none
end

/-- Model of `json.loads` on a list of code points: scan one value and
require that only whitespace follows it; anything else is the
`JSONDecodeError` ("Expecting value", "Extra data", …) that the decoder
raises, modelled as `none`. -/
def json_loads (cs : List Nat) : Option JValue :=
  match parse_value (2 * cs.length + 2) cs with
  | some (v, rest) => if skip_ws rest = [] then some v else none
  | none => none

example : json_loads [123, 34, 111, 107, 34, 58, 32, 49, 125]
    = some (.obj (.cons [111, 107] (.int 1) .nil)) := by decide

example : json_loads [91, 49, 50, 44, 32, 116, 114, 117, 101, 93]
    = some (.arr (.cons (.int 12) (.cons (.bool true) .nil))) := by decide

example : json_loads [123, 34, 111, 107, 34, 58, 49] = none := by decide

example : json_loads [45, 55] = some (.int (-7)) := by decide

example : json_loads [34, 92, 117, 48, 48, 101, 57, 34] = some (.str [233]) := by decide

/-- Lowercase hexadecimal digit code point for a value below 16. -/
def hex_digit (n : Nat) : Nat := if n < 10 then 48 + n else 87 + n

/-- Four-digit lowercase hexadecimal rendering of a value below 0x10000,
as used by `\uXXXX` escapes. -/
def hex4 (n : Nat) : List Nat :=
  [hex_digit (n / 4096 % 16), hex_digit (n / 256 % 16), hex_digit (n / 16 % 16), hex_digit (n % 16)]

/-- Escape one string character as `json.dumps` does with its default
`ensure_ascii=True`: printable ASCII other than quote and backslash is
kept, `\" \\ \b \t \n \f \r` are used where they exist, every other
control or non-ASCII character becomes `\uXXXX` (a surrogate pair above
0xFFFF). -/
def escape_char (c : Nat) : List Nat :=
  if c = 34 then [92, 34]
  else if c = 92 then [92, 92]
  else if c = 8 then [92, 98]
  else if c = 9 then [92, 116]
  else if c = 10 then [92, 110]
  else if c = 12 then [92, 102]
  else if c = 13 then [92, 114]
  else if c < 32 || 127 ≤ c then
    if c < 0x10000 then 92 :: 117 :: hex4 c
    else
      (92 :: 117 :: hex4 (0xD800 + (c - 0x10000) / 0x400))
        ++ (92 :: 117 :: hex4 (0xDC00 + (c - 0x10000) % 0x400))
  else [c]

/-- Serialise a string with surrounding quotes, escaping each character. -/
def dump_string (s : List Nat) : List Nat := 34 :: ((s.map escape_char).flatten ++ [34])

/-- Decimal digit code points of a natural number, most significant first;
the fuel (first argument) is an upper bound on the number of digits. -/
def nat_codes_go : Nat → Nat → List Nat → List Nat
  | 0, _, acc => acc
  | f + 1, n, acc => if n = 0 then acc else nat_codes_go f (n / 10) ((n % 10 + 48) :: acc)

/-- Decimal rendering of a natural number. -/
def nat_codes (n : Nat) : List Nat := if n = 0 then [48] else nat_codes_go n n []

/-- Decimal rendering of an integer, as `json.dumps` prints Python ints. -/
def int_codes (n : Int) : List Nat :=
  if n < 0 then 45 :: nat_codes (-n).toNat else nat_codes n.toNat

mutual
/-- Model of `json.dumps` with CPython's default options: separators
`", "` and `": "`, `ensure_ascii=True`.  Produces the code points of the
serialised document. -/
def json_dumps : JValue → List Nat
  | .null => [110, 117, 108, 108]
  | .bool true => [116, 114, 117, 101]
  | .bool false => [102, 97, 108, 115, 101]
  | .int n => int_codes n
  | .str s => dump_string s
  | .arr items => 91 :: (dump_items items ++ [93])
  | .obj ms => 123 :: (dump_members ms ++ [125])

/-- Serialise array elements joined by `", "`. -/
def dump_items : JItems → List Nat
  | .nil => []
  | .cons v rest => json_dumps v ++ dump_items_rest rest

/-- Serialise the non-first array elements, each preceded by `", "`. -/
def dump_items_rest : JItems → List Nat
  | .nil => []
  | .cons v rest => 44 :: 32 :: (json_dumps v ++ dump_items_rest rest)

/-- Serialise object members joined by `", "`, each as `"key": value`. -/
def dump_members : JMembers → List Nat
  | .nil => []
  | .cons k v rest => dump_string k ++ (58 :: 32 :: (json_dumps v ++ dump_members_rest rest))

/-- Serialise the non-first object members, each preceded by `", "`. -/
def dump_members_rest : JMembers → List Nat
  | .nil => []
  | .cons k v rest => 44 :: 32 :: (dump_string k ++ (58 :: 32 :: (json_dumps v ++ dump_members_rest rest)))
end

example : json_dumps (.obj (.cons [111, 107] (.int 12) (.cons [120] (.arr (.cons .null .nil)) .nil)))
    = [123, 34, 111, 107, 34, 58, 32, 49, 50, 44, 32, 34, 120, 34, 58, 32, 91, 110, 117, 108, 108, 93, 125] := by
  decide

example : json_loads (json_dumps (.obj (.cons [111, 107] (.int 12) (.cons [120] (.arr (.cons .null .nil)) .nil))))
    = some (.obj (.cons [111, 107] (.int 12) (.cons [120] (.arr (.cons .null .nil)) .nil))) := by decide

/-- Outcome of `json.loads(data.decode('utf-8'))` on a byte list, with the
exception class distinguished: `unicodeError` is the `UnicodeDecodeError`
raised by `bytes.decode`, `jsonError` the `json.JSONDecodeError` raised by
`json.loads`. -/
inductive DecodeOutcome where
  | ok (v : JValue) : DecodeOutcome
  | jsonError : DecodeOutcome
  | unicodeError : DecodeOutcome
deriving DecidableEq

/-- Model of the expression `json.loads(data.decode('utf-8'))` applied to
a byte list, as evaluated in `receive_full_response` and `send_command`. -/
def json_loads_bytes (data : List Nat) : DecodeOutcome :=
  match utf8_decode data with
  | none => .unicodeError
  | some cs =>
    match json_loads cs with
    | some v => .ok v
    | none => .jsonError

example : json_loads_bytes [123, 34, 111, 107, 34, 58, 49, 125] = .ok (.obj (.cons [111, 107] (.int 1) .nil)) := by
  decide

example : json_loads_bytes [34, 195] = .unicodeError := by decide

example : json_loads_bytes [34, 195, 169, 34] = .ok (.str [233]) := by decide

/-- One outcome of a `sock.recv(buffer_size)` call inside the receive
loop of `receive_full_response`: a delivered byte chunk (the empty chunk
models the peer having closed the connection), a raised `socket.timeout`,
or a raised `ConnectionError`/`BrokenPipeError`/`ConnectionResetError`.
The socket is modelled by the list of outcomes its successive `recv`
calls produce; exhaustion of the list models the 180-second deadline
elapsing with no further data, i.e. a `socket.timeout`. -/
inductive RecvEvent where
  | chunk (bytes : List Nat) : RecvEvent
  | timeout : RecvEvent
  | connError : RecvEvent
deriving DecidableEq

/-- Result of `receive_full_response`: the returned byte document, or one
of its exceptions.  `connectionClosed`, `incompleteMessage` and `noData`
are the `Exception("Connection closed before receiving any data")`,
`Exception("Incomplete JSON response received")` and
`Exception("No data received")` raises; `connError` is a re-raised socket
connection error; `decodeCrash` is an uncaught `UnicodeDecodeError`
escaping from a decode attempt (only `json.JSONDecodeError` is caught). -/
inductive RecvResult where
  | ok (data : List Nat) : RecvResult
  | connectionClosed : RecvResult
  | incompleteMessage : RecvResult
  | noData : RecvResult
  | connError : RecvResult
  | decodeCrash : RecvResult
deriving DecidableEq

/-- Model of lines 101–114 of `server.py`: after the loop exits by
timeout or by closed-channel-with-data, join the chunks and attempt one
final decode; success returns the data, `json.JSONDecodeError` raises
"Incomplete JSON response received", an empty buffer raises "No data
received" (a `UnicodeDecodeError` here is not caught and escapes). -/
def finish_receive (acc : List Nat) : RecvResult :=
  if acc = [] then .noData
  else
    match json_loads_bytes acc with
    | .ok _ => .ok acc
    | .jsonError => .incompleteMessage
    | .unicodeError => .decodeCrash

/-- Model of the `while True` loop of `receive_full_response` (lines
67–99 of `server.py`), carrying the joined bytes of the chunks received
so far.  A nonempty chunk is appended and the accumulated buffer is
speculatively decoded: success returns it, `json.JSONDecodeError`
continues the loop, `UnicodeDecodeError` escapes.  An empty chunk on an
empty buffer raises the connection-closed error, on a nonempty buffer it
breaks to the final decode; a `socket.timeout` breaks likewise; a
connection error is re-raised. -/
def receive_loop : List RecvEvent → List Nat → RecvResult
  | [], acc => finish_receive acc
  | .timeout :: _, acc => finish_receive acc
  | .connError :: _, _ => .connError
  | .chunk c :: rest, acc =>
    if c = [] then
      if acc = [] then .connectionClosed else finish_receive acc
    else
      match json_loads_bytes (acc ++ c) with
      | .ok _ => .ok (acc ++ c)
      | .jsonError => receive_loop rest (acc ++ c)
      | .unicodeError => .decodeCrash

/-- Model of `BlenderConnection.receive_full_response` (lines 60–114 of
`server.py`), as a function of the socket's delivery behaviour. -/
def receive_full_response (events : List RecvEvent) : RecvResult :=
  receive_loop events []

example : receive_full_response [.chunk [123, 34, 111, 107, 34, 58], .chunk [49, 125]]
    = .ok [123, 34, 111, 107, 34, 58, 49, 125] := by decide

example : receive_full_response [.chunk [123, 34], .timeout] = .incompleteMessage := by decide

example : receive_full_response [.chunk []] = .connectionClosed := by decide

example : receive_full_response [.timeout] = .noData := by decide

/-- Outcome of the `self.sock.sendall(...)` write in `send_command`, as a
function of the written payload: success, a raised
`ConnectionError`/`BrokenPipeError`/`ConnectionResetError`, a raised
`socket.timeout`, or any other raised exception. -/
inductive WriteResult where
  | ok : WriteResult
  | connError : WriteResult
  | timedOut : WriteResult
  | otherError : WriteResult
deriving DecidableEq

/-- Environment of one `send_command` call: whether a `connect()` attempt
would succeed, the behaviour of the socket write, and the receive
behaviour of the socket (consumed by `receive_full_response`). -/
structure SendEnv where
  connect_ok : Bool
  write : List Nat → WriteResult
  events : List RecvEvent

/-- Result of `send_command`: the parsed response returned on success, or
one of its raised exceptions.  `notConnected` is the
`ConnectionError("Not connected to Blender")`, `timeoutError` the
"Timeout waiting for Blender response" exception, `connLost` the
"Connection to Blender lost" exception, `invalidResponse` the
"Invalid response from Blender" exception raised on
`json.JSONDecodeError`, and `commError` the generic
"Communication error with Blender" exception. -/
inductive CmdResult where
  | success (v : JValue) : CmdResult
  | notConnected : CmdResult
  | timeoutError : CmdResult
  | connLost : CmdResult
  | invalidResponse : CmdResult
  | commError : CmdResult
deriving DecidableEq

/-- Model of lines 121–131 of `server.py`: build the command object
`{"type": command_type, "params": params or {}}` and serialise it with
`json.dumps(...).encode('utf-8')`. -/
def encode_command (command_type : List Nat) (params : Option JValue) : List Nat :=
  utf8_encode (json_dumps (.obj (.cons [116, 121, 112, 101] (.str command_type)
    (.cons [112, 97, 114, 97, 109, 115] (params.getD (.obj .nil)) .nil))))

/-- Model of lines 141–167 of `server.py` applied to the bytes handed
back by the frame reader: `json.loads(response_data.decode('utf-8'))`,
returning the parsed response on success.  On `json.JSONDecodeError` the
handler at lines 157–162 raises "Invalid response from Blender" and — in
contrast with every other handler — does not clear `self.sock`.  On a
`UnicodeDecodeError` (not matched by the specific handlers) the generic
`except Exception` handler raises "Communication error" and clears
`self.sock`.  The first component is the outcome, the second the
resulting `self.sock` given the current `self.sock` value `s`. -/
def dispatch_response (s : Option Unit) (data : List Nat) : CmdResult × Option Unit :=
  match json_loads_bytes data with
  | .ok v => (.success v, s)
  | .jsonError => (.invalidResponse, s)
  | .unicodeError => (.commError, none)

/-- Model of the try block of `BlenderConnection.send_command` (lines
126–167 of `server.py`), entered holding a socket.  Mirrors: the
`sendall` write with its exception handlers, the `receive_full_response`
call whose raised exceptions are mapped by the `except` clauses (a socket
connection error to "Connection to Blender lost", everything else to the
generic communication error, each clearing `self.sock`), and the final
parse of the returned bytes.  The second component is the resulting
`self.sock`. -/
def send_attempt (command_type : List Nat) (params : Option JValue) (env : SendEnv) :
    CmdResult × Option Unit :=
  match env.write (encode_command command_type params) with
  | .connError => (.connLost, none)
  | .timedOut => (.timeoutError, none)
  | .otherError => (.commError, none)
  | .ok =>
    match receive_full_response env.events with
    | .ok data => dispatch_response (some ()) data
    | .connError => (.connLost, none)
    | .connectionClosed => (.commError, none)
    | .incompleteMessage => (.commError, none)
    | .noData => (.commError, none)
    | .decodeCrash => (.commError, none)

/-- Model of the guard at line 118 of `server.py` composed with the try
block: with no socket held and a failing `connect()`, raise
`ConnectionError("Not connected to Blender")`; otherwise a socket is held
(freshly connected if needed) and the dispatch proceeds. -/
def send_command (sock : Option Unit) (command_type : List Nat) (params : Option JValue)
    (env : SendEnv) : CmdResult × Option Unit :=
  match sock, env.connect_ok with
  | none, false => (.notConnected, none)
  | _, _ => send_attempt command_type params env

/-- ASCII codes of the string "get_polyhaven_status", the no-op command
used by `get_blender_connection` to health-check a cached connection. -/
def polyhaven_status_cmd : List Nat :=
  [103, 101, 116, 95, 112, 111, 108, 121, 104, 97, 118, 101, 110, 95, 115, 116, 97, 116, 117, 115]

/-- ASCII codes of the string "enabled". -/
def enabled_key : List Nat := [101, 110, 97, 98, 108, 101, 100]

/-- Lookup of a key among object members with the last occurrence
winning, as in the Python dict produced by `json.loads`. -/
def member_lookup : JMembers → List Nat → Option JValue
  | .nil, _ => none
  | .cons k v rest, key =>
    match member_lookup rest key with
    | some v2 => some v2
    | none => if k = key then some v else none

/-- Result of `get_blender_connection`: the returned connection's socket
state, or the raised `Exception("Could not connect to Blender. Make sure
the Blender addon is running.")`. -/
inductive AcquireResult where
  | acquired (sock : Option Unit) : AcquireResult
  | failure : AcquireResult
deriving DecidableEq

/-- Model of lines 238–246 of `server.py`: create a fresh
`BlenderConnection` and `connect()`; on failure clear the global and
raise.  Returns (result, new cached connection, new `_polyhaven_enabled`). -/
def create_new_connection (connect_ok : Bool) (ph : JValue) :
    AcquireResult × Option (Option Unit) × JValue :=
  if connect_ok then (.acquired (some ()), some (some ()), ph)
  else (.failure, none, ph)

/-- Model of `get_blender_connection` (lines 217–249 of `server.py`) as a
function of the cached global `_blender_connection` (its socket state),
the global `_polyhaven_enabled`, the environment of the health-check
`send_command("get_polyhaven_status")` call, and whether a fresh
`connect()` would succeed.  A cached connection is health-checked through
the full dispatch path; if the check raises for any reason — including
`result.get("enabled", False)` failing on a non-dict response — the
cached connection is discarded (after a best-effort `disconnect()`) and a
new one is created.  Returns (result, new cached connection, new
`_polyhaven_enabled`). -/
def get_blender_connection (cached : Option (Option Unit)) (ph : JValue)
    (health_env : SendEnv) (connect_ok : Bool) :
    AcquireResult × Option (Option Unit) × JValue :=
  match cached with
  | some c =>
    match send_command c polyhaven_status_cmd none health_env with
    | (.success (.obj ms), c2) =>
      (.acquired c2, some c2, (member_lookup ms enabled_key).getD (.bool false))
    | (.success _, _) => create_new_connection connect_ok ph
    | (.notConnected, _) => create_new_connection connect_ok ph
    | (.timeoutError, _) => create_new_connection connect_ok ph
    | (.connLost, _) => create_new_connection connect_ok ph
    | (.invalidResponse, _) => create_new_connection connect_ok ph
    | (.commError, _) => create_new_connection connect_ok ph
  | none => create_new_connection connect_ok ph

example :
    send_command (some ()) polyhaven_status_cmd none
      { connect_ok := true, write := fun _ => .ok,
        events := [.chunk [123, 34, 101, 110, 97, 98, 108, 101, 100, 34, 58, 32, 116, 114, 117, 101, 125]] }
    = (.success (.obj (.cons enabled_key (.bool true) .nil)), some ()) := by decide

example :
    get_blender_connection (some (some ())) (.bool false)
      { connect_ok := true, write := fun _ => .ok,
        events := [.chunk [123, 34, 101, 110, 97, 98, 108, 101, 100, 34, 58, 32, 116, 114, 117, 101, 125]] }
      true
    = (.acquired (some ()), some (some ()), .bool true) := by decide

example :
    get_blender_connection (some (some ())) (.bool false)
      { connect_ok := true, write := fun _ => .connError, events := [] } false
    = (.failure, none, .bool false) := by decide

/-- Decode of the empty byte buffer: `json.loads('')` raises a
`JSONDecodeError` ("Expecting value"). -/
lemma json_loads_bytes_nil : json_loads_bytes [] = .jsonError := by decide

/-- Flattening a nonempty list of nonempty chunks gives a nonempty list. -/
lemma flatten_ne_nil {cs : List (List Nat)} (hcs : cs ≠ []) (hne : ∀ c ∈ cs, c ≠ []) :
    cs.flatten ≠ [] := by
  cases cs with
  | nil => exact absurd rfl hcs
  | cons c rest =>
    have hc : c ≠ [] := hne c (by simp)
    rw [List.flatten_cons]
    intro h
    exact hc (List.append_eq_nil.mp h).1

/-- Running the receive loop over nonempty chunks whose successive
accumulations all fail to decode with a `JSONDecodeError` just appends
the chunks to the buffer and continues with the remaining events. -/
lemma receive_loop_accumulate :
    ∀ (cs : List (List Nat)) (evs : List RecvEvent) (acc : List Nat),
      (∀ c ∈ cs, c ≠ []) →
      (∀ n, 1 ≤ n → n ≤ cs.length → json_loads_bytes (acc ++ (cs.take n).flatten) = .jsonError) →
      receive_loop (cs.map .chunk ++ evs) acc = receive_loop evs (acc ++ cs.flatten)
  | [], evs, acc, _, _ => by simp
  | c :: rest, evs, acc, hne, hdec => by
    have hc : c ≠ [] := hne c (by simp)
    have h1 : json_loads_bytes (acc ++ c) = .jsonError := by
      have := hdec 1 (by omega) (by simp)
      simpa using this
    have ih := receive_loop_accumulate rest evs (acc ++ c)
      (fun x hx => hne x (by simp [hx]))
      (fun n hn1 hn2 => by
        have := hdec (n + 1) (by omega) (by simpa using hn2)
        simpa [List.append_assoc] using this)
    simp only [List.map_cons, List.cons_append, receive_loop, if_neg hc, h1, List.append_eq]
    rw [ih]
    simp [List.flatten_cons, List.append_assoc]

/-- Running the receive loop over nonempty chunks that reassemble a
document none of whose proper prefixes decodes returns exactly the full
document. -/
lemma receive_loop_exact :
    ∀ (cs : List (List Nat)) (acc doc : List Nat) (v : JValue),
      (∀ c ∈ cs, c ≠ []) → cs ≠ [] →
      acc ++ cs.flatten = doc →
      (∀ n, n < doc.length → json_loads_bytes (doc.take n) = .jsonError) →
      json_loads_bytes doc = .ok v →
      receive_loop (cs.map .chunk) acc = .ok doc
  | [], _, _, _, _, hcs, _, _, _ => absurd rfl hcs
  | c :: rest, acc, doc, v, hne, _, hjoin, hpre, hdoc => by
    have hc : c ≠ [] := hne c (by simp)
    rcases rest with _ | ⟨c2, rest2⟩
    · have hdoceq : acc ++ c = doc := by simpa using hjoin
      simp only [List.map_cons, List.map_nil, receive_loop, if_neg hc, hdoceq, hdoc]
    · have hflat : (c2 :: rest2).flatten ≠ [] :=
        flatten_ne_nil (by simp) (fun x hx => hne x (by simp [hx]))
      have hsplit : doc = (acc ++ c) ++ (c2 :: rest2).flatten := by
        rw [← hjoin]
        simp [List.flatten_cons, List.append_assoc]
      have hlen : (acc ++ c).length < doc.length := by
        rw [hsplit]
        have := List.length_pos.mpr hflat
        simp only [List.length_append]
        omega
      have htake : doc.take (acc ++ c).length = acc ++ c := by
        rw [hsplit]
        exact List.take_left _ _
      have h1 : json_loads_bytes (acc ++ c) = .jsonError := by
        have := hpre (acc ++ c).length hlen
        rwa [htake] at this
      have ih := receive_loop_exact (c2 :: rest2) (acc ++ c) doc v
        (fun x hx => hne x (by simp [hx])) (by simp)
        (by rw [← hjoin]; simp [List.append_assoc]) hpre hdoc
      simp only [List.map_cons, receive_loop, if_neg hc, h1]
      exact ih

/-- The claim fails as stated: the bytes `12` followed by `3` reassemble
the complete document `123`, but the one-byte-split delivery returns the
decodable proper prefix `12` instead of the full document that single-read
delivery returns. -/
theorem claim_C1_counterexample :
    json_loads_bytes [49, 50, 51] = .ok (.int 123) ∧
    receive_full_response [.chunk [49, 50], .chunk [51]] = .ok [49, 50] ∧
    receive_full_response [.chunk [49, 50, 51]] = .ok [49, 50, 51] ∧
    receive_full_response [.chunk [49, 50], .chunk [51]]
      ≠ receive_full_response [.chunk [49, 50, 51]] := by
  refine ⟨by decide, by decide, by decide, by decide⟩

/-- Claim C1, amended: if additionally every proper prefix of the byte
sequence fails to decode with an ordinary `JSONDecodeError` (true of the
protocol's object-shaped Responses in ASCII encoding, but not of every
document — see the counterexample), then however the channel splits the
bytes into nonempty partial reads, `receive_full_response` returns the
same complete document that a single-read delivery returns. -/
theorem claim_C1 (doc : List Nat) (chunks : List (List Nat)) (v : JValue)
    (hjoin : chunks.flatten = doc)
    (hne : ∀ c ∈ chunks, c ≠ [])
    (hpre : ∀ n, n < doc.length → json_loads_bytes (doc.take n) = .jsonError)
    (hdoc : json_loads_bytes doc = .ok v) :
    receive_full_response (chunks.map .chunk) = .ok doc ∧
    receive_full_response [.chunk doc] = .ok doc := by
  have hdocne : doc ≠ [] := by
    intro h
    rw [h, json_loads_bytes_nil] at hdoc
    exact absurd hdoc (by simp)
  have hchunksne : chunks ≠ [] := by
    intro h
    rw [h] at hjoin
    exact hdocne (by simpa using hjoin.symm)
  constructor
  · exact receive_loop_exact chunks [] doc v hne hchunksne (by simpa using hjoin) hpre hdoc
  · simp only [receive_full_response, receive_loop, if_neg hdocne, List.nil_append, hdoc]

/-- Witness: the document `{"ok": 1}` delivered one byte at a time is
reassembled and returned exactly as under single-read delivery. -/
theorem claim_C1_witness :
    receive_full_response
        ([[123], [34], [111], [107], [34], [58], [32], [49], [125]].map .chunk)
      = .ok [123, 34, 111, 107, 34, 58, 32, 49, 125] ∧
    receive_full_response [.chunk [123, 34, 111, 107, 34, 58, 32, 49, 125]]
      = .ok [123, 34, 111, 107, 34, 58, 32, 49, 125] :=
  claim_C1 [123, 34, 111, 107, 34, 58, 32, 49, 125]
    [[123], [34], [111], [107], [34], [58], [32], [49], [125]]
    (.obj (.cons [111, 107] (.int 1) .nil))
    (by decide) (by decide) (by decide) (by decide)

/-- Running the receive loop over chunks none of whose accumulations
decodes with a `UnicodeDecodeError` never crashes out of a decode. -/
lemma receive_loop_no_crash :
    ∀ (cs : List (List Nat)) (acc : List Nat),
      (∀ n, n ≤ cs.length → json_loads_bytes (acc ++ (cs.take n).flatten) ≠ .unicodeError) →
      receive_loop (cs.map .chunk) acc ≠ .decodeCrash
  | [], acc, hdec => by
    have h0 : json_loads_bytes acc ≠ .unicodeError := by
      have := hdec 0 (by omega)
      simpa using this
    simp only [List.map_nil, receive_loop, finish_receive]
    by_cases hacc : acc = []
    · simp [hacc]
    · simp only [if_neg hacc]
      rcases h : json_loads_bytes acc with _ | _ | _ <;> simp_all
  | c :: rest, acc, hdec => by
    by_cases hc : c = []
    · subst hc
      have h0 : json_loads_bytes acc ≠ .unicodeError := by
        have := hdec 0 (by omega)
        simpa using this
      simp only [List.map_cons, receive_loop, if_pos rfl]
      by_cases hacc : acc = []
      · simp [hacc]
      · simp only [if_neg hacc, finish_receive, if_neg hacc]
        rcases h : json_loads_bytes acc with _ | _ | _ <;> simp_all
    · have h1 : json_loads_bytes (acc ++ c) ≠ .unicodeError := by
        have := hdec 1 (by simp)
        simpa using this
      have ih := receive_loop_no_crash rest (acc ++ c)
        (fun n hn => by
          have := hdec (n + 1) (by simpa using hn)
          simpa [List.append_assoc] using this)
      simp only [List.map_cons, receive_loop, if_neg hc]
      rcases h : json_loads_bytes (acc ++ c) with _ | _ | _ <;> simp_all

/-- The claim fails as stated: the three reads `"`, `0xC3`, `0xA9 "`
reassemble the complete document `"é"` (UTF-8), but the mid-stream decode
attempt on the first two bytes raises a `UnicodeDecodeError` — which is
not a `json.JSONDecodeError` and is not caught — so the receive operation
itself fails instead of continuing to read. -/
theorem claim_C2_counterexample :
    json_loads_bytes [34, 195, 169, 34] = .ok (.str [233]) ∧
    json_loads_bytes [34, 195] = .unicodeError ∧
    receive_full_response [.chunk [34], .chunk [195], .chunk [169, 34]] = .decodeCrash := by
  refine ⟨by decide, by decide, by decide⟩

/-- Claim C2, amended: a mid-stream `json.JSONDecodeError` — whatever its
cause, document incompleteness or not — is treated as "incomplete, keep
reading" and the loop continues; and as long as no accumulated buffer
raises a `UnicodeDecodeError`, no mid-stream decode attempt makes the
receive operation fail.  A `UnicodeDecodeError` on an accumulated buffer,
however, escapes the loop and fails the receive (see the counterexample). -/
theorem claim_C2 :
    (∀ (c : List Nat) (evs : List RecvEvent) (acc : List Nat), c ≠ [] →
      json_loads_bytes (acc ++ c) = .jsonError →
      receive_loop (.chunk c :: evs) acc = receive_loop evs (acc ++ c)) ∧
    (∀ cs : List (List Nat),
      (∀ n, n ≤ cs.length → json_loads_bytes ((cs.take n).flatten) ≠ .unicodeError) →
      receive_full_response (cs.map .chunk) ≠ .decodeCrash) := by
  constructor
  · intro c evs acc hc hdec
    simp only [receive_loop, if_neg hc, hdec]
  · intro cs hdec
    exact receive_loop_no_crash cs []
      (fun n hn => by simpa using hdec n hn)

/-- Witness: a mid-stream decode of `{"` fails with a `JSONDecodeError`
and the loop keeps reading; an all-ASCII chunked delivery never produces
a decode crash. -/
theorem claim_C2_witness :
    receive_loop [.chunk [123, 34], .chunk [125]] [] = receive_loop [.chunk [125]] [123, 34] ∧
    receive_full_response ([[123], [125]].map .chunk) ≠ .decodeCrash := by
  constructor
  · exact claim_C2.1 [123, 34] [.chunk [125]] [] (by decide) (by decide)
  · exact claim_C2.2 [[123], [125]] (by decide)

/-- Claim C4: an empty read on an empty buffer fails with the
connection-closed error; a channel that delivers some bytes never forming
a complete document and then closes fails with the incomplete-message
error. -/
theorem claim_C4 :
    (∀ evs : List RecvEvent, receive_full_response (.chunk [] :: evs) = .connectionClosed) ∧
    (∀ (cs : List (List Nat)) (evs : List RecvEvent), cs ≠ [] →
      (∀ c ∈ cs, c ≠ []) →
      (∀ n, 1 ≤ n → n ≤ cs.length → json_loads_bytes ((cs.take n).flatten) = .jsonError) →
      receive_full_response (cs.map .chunk ++ .chunk [] :: evs) = .incompleteMessage) := by
  constructor
  · intro evs
    simp [receive_full_response, receive_loop]
  · intro cs evs hcs hne hdec
    have hacc := receive_loop_accumulate cs (.chunk [] :: evs) []
      hne (fun n hn1 hn2 => by simpa using hdec n hn1 hn2)
    have hflat : cs.flatten ≠ [] := flatten_ne_nil hcs hne
    have hfull : json_loads_bytes cs.flatten = .jsonError := by
      have := hdec cs.length (by
        rcases cs with _ | _
        · exact absurd rfl hcs
        · simp) (by omega)
      simpa using this
    rw [receive_full_response, hacc]
    simp only [List.nil_append]
    generalize hX : cs.flatten = X at hflat hfull ⊢
    simp [receive_loop, finish_receive, hflat, hfull]

/-- Witness for claim C4: an immediately closed channel, and a channel
closing after the lone byte `{`. -/
theorem claim_C4_witness :
    receive_full_response (.chunk [] :: [.timeout]) = .connectionClosed ∧
    receive_full_response ([[123]].map .chunk ++ .chunk [] :: []) = .incompleteMessage := by
  constructor
  · exact claim_C4.1 [.timeout]
  · exact claim_C4.2 [[123]] [] (by decide) (by decide) (by decide)

/-- Claim C5: when the loop exits via timeout or via
closed-channel-with-data, the result is exactly one final decode of the
accumulated buffer (`finish_receive`): a successful decode returns the
accumulated document as a normal success, a `JSONDecodeError` fails with
the incomplete-message error.  (For a loop reached through only
`JSONDecodeError` accumulations — the only way to reach the exit with
data — that final decode necessarily fails, giving `incompleteMessage`.) -/
theorem claim_C5 :
    (∀ (d : List Nat) (v : JValue), d ≠ [] → json_loads_bytes d = .ok v →
      finish_receive d = .ok d) ∧
    (∀ d : List Nat, d ≠ [] → json_loads_bytes d = .jsonError →
      finish_receive d = .incompleteMessage) ∧
    (∀ (cs : List (List Nat)) (evs : List RecvEvent), cs ≠ [] →
      (∀ c ∈ cs, c ≠ []) →
      (∀ n, 1 ≤ n → n ≤ cs.length → json_loads_bytes ((cs.take n).flatten) = .jsonError) →
      receive_full_response (cs.map .chunk ++ .timeout :: evs) = finish_receive cs.flatten ∧
      receive_full_response (cs.map .chunk ++ .chunk [] :: evs) = finish_receive cs.flatten ∧
      receive_full_response (cs.map .chunk ++ .timeout :: evs) = .incompleteMessage) := by
  refine ⟨?_, ?_, ?_⟩
  · intro d v hd hv
    simp [finish_receive, if_neg hd, hv]
  · intro d hd hv
    simp [finish_receive, if_neg hd, hv]
  · intro cs evs hcs hne hdec
    have hacc := receive_loop_accumulate cs (.timeout :: evs) []
      hne (fun n hn1 hn2 => by simpa using hdec n hn1 hn2)
    have hacc2 := receive_loop_accumulate cs (.chunk [] :: evs) []
      hne (fun n hn1 hn2 => by simpa using hdec n hn1 hn2)
    have hflat : cs.flatten ≠ [] := flatten_ne_nil hcs hne
    have hfull : json_loads_bytes cs.flatten = .jsonError := by
      have := hdec cs.length (by
        rcases cs with _ | _
        · exact absurd rfl hcs
        · simp) (by omega)
      simpa using this
    refine ⟨?_, ?_, ?_⟩
    · rw [receive_full_response, hacc]
      simp [receive_loop]
    · rw [receive_full_response, hacc2]
      simp only [List.nil_append]
      generalize hX : cs.flatten = X at hflat ⊢
      simp [receive_loop, hflat]
    · rw [receive_full_response, hacc]
      simp only [List.nil_append]
      generalize hX : cs.flatten = X at hflat hfull ⊢
      simp [receive_loop, finish_receive, hflat, hfull]

/-- Witness for claim C5: the final decode of the complete buffer `{}`
succeeds and is returned; the final decode of `{` fails as incomplete;
a channel delivering only `{` and then timing out yields exactly the
final-decode result, the incomplete-message error. -/
theorem claim_C5_witness :
    finish_receive [123, 125] = .ok [123, 125] ∧
    finish_receive [123] = .incompleteMessage ∧
    (receive_full_response (([[123]] : List (List Nat)).map .chunk ++ .timeout :: [])
        = finish_receive ([[123]] : List (List Nat)).flatten ∧
      receive_full_response (([[123]] : List (List Nat)).map .chunk ++ .chunk [] :: [])
        = finish_receive ([[123]] : List (List Nat)).flatten ∧
      receive_full_response (([[123]] : List (List Nat)).map .chunk ++ .timeout :: [])
        = .incompleteMessage) := by
  refine ⟨?_, ?_, ?_⟩
  · exact claim_C5.1 [123, 125] (.obj .nil) (by decide) (by decide)
  · exact claim_C5.2.1 [123] (by decide) (by decide)
  · exact claim_C5.2.2 [[123]] [] (by decide) (by decide) (by decide)

/-- The final decode branch returns exactly the accumulated buffer, and
only when that buffer decodes successfully. -/
lemma finish_receive_ok (acc : List Nat) {data : List Nat}
    (h : finish_receive acc = .ok data) :
    data = acc ∧ ∃ v, json_loads_bytes acc = .ok v := by
  by_cases hacc : acc = []
  · simp [finish_receive, hacc] at h
  · rcases hv : json_loads_bytes acc with v | _ | _ <;>
      simp_all [finish_receive, hacc, hv]

/-- Bytes returned by the receive loop always come from a decode attempt
that just succeeded: every returned buffer decodes as a complete
document. -/
lemma recv_ok_decodes :
    ∀ (evs : List RecvEvent) (acc data : List Nat),
      receive_loop evs acc = .ok data → ∃ v, json_loads_bytes data = .ok v
  | [], acc, data, h => by
    obtain ⟨rfl, hv⟩ := finish_receive_ok acc (by simpa [receive_loop] using h)
    exact hv
  | .timeout :: _, acc, data, h => by
    obtain ⟨rfl, hv⟩ := finish_receive_ok acc (by simpa [receive_loop] using h)
    exact hv
  | .connError :: _, acc, data, h => by simp [receive_loop] at h
  | .chunk c :: rest, acc, data, h => by
    by_cases hc : c = []
    · subst hc
      by_cases hacc : acc = []
      · simp [receive_loop, hacc] at h
      · obtain ⟨rfl, hv⟩ := finish_receive_ok acc
          (by simpa [receive_loop, hacc] using h)
        exact hv
    · rcases hdec : json_loads_bytes (acc ++ c) with v | _ | _
      · simp only [receive_loop, if_neg hc, hdec] at h
        injection h with h2
        exact ⟨v, h2 ▸ hdec⟩
      · have h2 : receive_loop rest (acc ++ c) = .ok data := by
          simpa only [receive_loop, if_neg hc, hdec] using h
        exact recv_ok_decodes rest (acc ++ c) data h2
      · simp only [receive_loop, if_neg hc, hdec] at h
        exact RecvResult.noConfusion h

/-- The try block of the dispatcher either returns a parsed response with
the socket kept, or fails with the socket cleared — and it can never
reach the `json.JSONDecodeError` handler, because the frame reader only
returns bytes that already decode. -/
lemma send_attempt_spec (ct : List Nat) (p : Option JValue) (env : SendEnv) :
    (∃ v, send_attempt ct p env = (.success v, some ())) ∨
    ((send_attempt ct p env).2 = none ∧ (send_attempt ct p env).1 ≠ .invalidResponse ∧
      ∀ v, (send_attempt ct p env).1 ≠ .success v) := by
  unfold send_attempt
  cases hw : env.write (encode_command ct p) with
  | ok =>
    cases hr : receive_full_response env.events with
    | ok data =>
      obtain ⟨v, hv⟩ := recv_ok_decodes env.events [] data hr
      exact Or.inl ⟨v, by simp [dispatch_response, hv]⟩
    | connectionClosed => exact Or.inr (by simp)
    | incompleteMessage => exact Or.inr (by simp)
    | noData => exact Or.inr (by simp)
    | connError => exact Or.inr (by simp)
    | decodeCrash => exact Or.inr (by simp)
  | connError => exact Or.inr (by simp)
  | timedOut => exact Or.inr (by simp)
  | otherError => exact Or.inr (by simp)

/-- Failures of the dispatch try block leave the socket cleared. -/
lemma send_attempt_err {ct : List Nat} {p : Option JValue} {env : SendEnv}
    {r : CmdResult} {s2 : Option Unit}
    (heq : send_attempt ct p env = (r, s2)) (hne : ∀ v, r ≠ .success v) : s2 = none := by
  rcases send_attempt_spec ct p env with ⟨v, hv⟩ | ⟨h2, _, _⟩
  · rw [hv] at heq
    exact absurd ((Prod.mk.injEq _ _ _ _).mp heq).1.symm (hne v)
  · rw [heq] at h2
    simpa using h2

/-- The dispatch try block never produces the invalid-response outcome. -/
lemma send_attempt_not_invalid (ct : List Nat) (p : Option JValue) (env : SendEnv) :
    (send_attempt ct p env).1 ≠ .invalidResponse := by
  rcases send_attempt_spec ct p env with ⟨v, hv⟩ | ⟨_, h2, _⟩
  · simp [hv]
  · exact h2

/-- Claim C10: any byte sequence returned by `receive_full_response`
already decodes successfully as one complete document, and consequently
the `json.JSONDecodeError` branch of `send_command`'s response parse is
unreachable: no call ever produces the "Invalid response from Blender"
outcome. -/
theorem claim_C10 :
    (∀ (events : List RecvEvent) (data : List Nat),
      receive_full_response events = .ok data → ∃ v, json_loads_bytes data = .ok v) ∧
    (∀ (sock : Option Unit) (ct : List Nat) (p : Option JValue) (env : SendEnv),
      (send_command sock ct p env).1 ≠ .invalidResponse) := by
  constructor
  · intro events data h
    exact recv_ok_decodes events [] data h
  · intro sock ct p env
    rcases sock with _ | u <;> cases hco : env.connect_ok
    · simp [send_command, hco]
    · simpa [send_command, hco] using send_attempt_not_invalid ct p env
    · simpa [send_command, hco] using send_attempt_not_invalid ct p env
    · simpa [send_command, hco] using send_attempt_not_invalid ct p env

/-- Witness for claim C10: a delivery of the complete document `{}`. -/
theorem claim_C10_witness :
    ∃ v, json_loads_bytes [123, 125] = .ok v :=
  claim_C10.1 [.chunk [123, 125]] [123, 125] (by decide)

/-- Claim C3: every non-success outcome of `send_command` leaves the
socket handle cleared (`self.sock = None`), so the next call cannot reuse
the old handle; and a call finding no socket performs a fresh connect
attempt (failing with the not-connected error when the host refuses). -/
theorem claim_C3 :
    (∀ (sock : Option Unit) (ct : List Nat) (p : Option JValue) (env : SendEnv)
      (r : CmdResult) (s2 : Option Unit),
      send_command sock ct p env = (r, s2) → (∀ v, r ≠ .success v) → s2 = none) ∧
    (∀ (ct : List Nat) (p : Option JValue) (env : SendEnv), env.connect_ok = false →
      send_command none ct p env = (.notConnected, none)) := by
  constructor
  · intro sock ct p env r s2 heq hne
    rcases sock with _ | u <;> cases hco : env.connect_ok
    · simp [send_command, hco] at heq
      exact heq.2.symm
    · simp only [send_command, hco] at heq
      exact send_attempt_err heq hne
    · simp only [send_command, hco] at heq
      exact send_attempt_err heq hne
    · simp only [send_command, hco] at heq
      exact send_attempt_err heq hne
  · intro ct p env h
    simp [send_command, h]

/-- Witness for claim C3: a write failing with a connection error leaves
the socket cleared; a fresh call with no socket and a refused connect
fails with the not-connected error. -/
theorem claim_C3_witness :
    (send_command (some ()) [] none
        { connect_ok := true, write := fun _ => .connError, events := [] }).2 = none ∧
    send_command none [] none { connect_ok := false, write := fun _ => .ok, events := [] }
      = (.notConnected, none) := by
  constructor
  · exact claim_C3.1 (some ()) [] none
      { connect_ok := true, write := fun _ => .connError, events := [] } .connLost
      (send_command (some ()) [] none
        { connect_ok := true, write := fun _ => .connError, events := [] }).2
      (by decide) (fun v h => CmdResult.noConfusion h)
  · exact claim_C3.2 [] none
      { connect_ok := false, write := fun _ => .ok, events := [] } (by decide)

/-- The claim fails as stated on the code: when the response-parse of the
dispatcher hits a `json.JSONDecodeError` (here on the non-document byte
`a`), the handler at lines 157–162 raises the invalid-response error but
— unlike every other handler in `send_command` — does not clear
`self.sock`, so the handle is not discarded before the error reaches the
caller. -/
theorem claim_C6_counterexample :
    json_loads_bytes [97] = .jsonError ∧
    dispatch_response (some ()) [97] = (.invalidResponse, some ()) ∧
    (dispatch_response (some ()) [97]).2 ≠ none := by
  refine ⟨by decide, by decide, by decide⟩

/-- Claim C6, amended: if the dispatcher's structural decode of the bytes
handed back by the frame reader fails with a `json.JSONDecodeError`, the
call surfaces the invalid-response (malformed-response) error, but the
socket handle is left exactly as it was — this branch is the one failure
handler that does not discard the handle.  (By claim C10 the branch is
unreachable for bytes actually returned by `receive_full_response`.) -/
theorem claim_C6 (s : Option Unit) (data : List Nat)
    (h : json_loads_bytes data = .jsonError) :
    dispatch_response s data = (.invalidResponse, s) := by
  simp [dispatch_response, h]

/-- Witness for claim C6: the undecodable byte `a` with a held socket. -/
theorem claim_C6_witness :
    dispatch_response (some ()) [97, 98] = (.invalidResponse, some ()) :=
  claim_C6 (some ()) [97, 98] (by decide)

/-- ASCII codes of the string "status". -/
def status_key : List Nat := [115, 116, 97, 116, 117, 115]

/-- ASCII codes of the string "error". -/
def error_tag : List Nat := [101, 114, 114, 111, 114]

/-- Claim C9: on a successful round trip — write accepted, frame reader
returning bytes that decode — `send_command` returns the decoded Response
verbatim, in particular also when the Response's "status" member is the
"error" tag: the dispatcher neither raises on, rewrites, nor drops
domain-level error content, and the socket is kept. -/
theorem claim_C9 (ct : List Nat) (p : Option JValue) (env : SendEnv)
    (data : List Nat) (ms : JMembers)
    (hw : env.write (encode_command ct p) = .ok)
    (hr : receive_full_response env.events = .ok data)
    (hv : json_loads_bytes data = .ok (.obj ms))
    (_hstatus : member_lookup ms status_key = some (.str error_tag)) :
    send_command (some ()) ct p env = (.success (.obj ms), some ()) := by
  cases hco : env.connect_ok <;>
    simp [send_command, hco, send_attempt, hw, hr, dispatch_response, hv]

/-- Witness for claim C9: the error Response `{"status": "error"}` is
returned unchanged as a success value. -/
theorem claim_C9_witness :
    send_command (some ()) [] none
      { connect_ok := true, write := fun _ => .ok,
        events := [.chunk [123, 34, 115, 116, 97, 116, 117, 115, 34, 58, 32, 34, 101, 114,
          114, 111, 114, 34, 125]] }
    = (.success (.obj (.cons status_key (.str error_tag) .nil)), some ()) :=
  claim_C9 [] none _
    [123, 34, 115, 116, 97, 116, 117, 115, 34, 58, 32, 34, 101, 114, 114, 111, 114, 34, 125]
    (.cons status_key (.str error_tag) .nil)
    (by decide) (by decide) (by decide) (by decide)

/-- Claim C7: `get_blender_connection` health-checks a cached connection
by sending the "get_polyhaven_status" no-op through the full
`send_command` dispatch path, returning the cached connection (and
recording the "enabled" member) when the check yields a dict response;
whenever the check fails in any way — any raised error, or a non-dict
response making `result.get` raise — the cached connection is dropped and
a fresh connect is attempted; and when that connect is refused the call
fails and leaves no cached connection behind. -/
theorem claim_C7 :
    (∀ (c : Option Unit) (env : SendEnv) (ms : JMembers) (c2 : Option Unit)
      (ph : JValue) (ck : Bool),
      send_command c polyhaven_status_cmd none env = (.success (.obj ms), c2) →
      get_blender_connection (some c) ph env ck
        = (.acquired c2, some c2, (member_lookup ms enabled_key).getD (.bool false))) ∧
    (∀ (c : Option Unit) (env : SendEnv) (ph : JValue) (ck : Bool),
      (∀ (ms : JMembers) (c2 : Option Unit),
        send_command c polyhaven_status_cmd none env ≠ (.success (.obj ms), c2)) →
      get_blender_connection (some c) ph env ck = create_new_connection ck ph) ∧
    (∀ (ph : JValue) (env : SendEnv) (ck : Bool),
      get_blender_connection none ph env ck = create_new_connection ck ph) ∧
    (∀ ph : JValue, create_new_connection false ph = (.failure, none, ph) ∧
      create_new_connection true ph = (.acquired (some ()), some (some ()), ph)) := by
  refine ⟨?_, ?_, ?_, ?_⟩
  · intro c env ms c2 ph ck hsend
    simp [get_blender_connection, hsend]
  · intro c env ph ck hfail
    cases hsend : send_command c polyhaven_status_cmd none env with
    | mk r c2 =>
      rcases r with v | _ | _ | _ | _ | _
      · rcases v with _ | b | n | sv | items | ms
        · simp [get_blender_connection, hsend]
        · simp [get_blender_connection, hsend]
        · simp [get_blender_connection, hsend]
        · simp [get_blender_connection, hsend]
        · simp [get_blender_connection, hsend]
        · exact absurd hsend (hfail ms c2)
      · simp [get_blender_connection, hsend]
      · simp [get_blender_connection, hsend]
      · simp [get_blender_connection, hsend]
      · simp [get_blender_connection, hsend]
      · simp [get_blender_connection, hsend]
  · intro ph env ck
    simp [get_blender_connection]
  · intro ph
    exact ⟨by simp [create_new_connection], by simp [create_new_connection]⟩

/-- Witness for claim C7: a healthy check returning `{"enabled": true}`
keeps the cached connection and records the flag; a check failing on a
lost write tears the cache down, reconnecting when possible and failing
with no cached connection when the connect is refused. -/
theorem claim_C7_witness :
    get_blender_connection (some (some ())) (.bool false)
      { connect_ok := true, write := fun _ => .ok,
        events := [.chunk [123, 34, 101, 110, 97, 98, 108, 101, 100, 34, 58, 32, 116, 114,
          117, 101, 125]] } true
      = (.acquired (some ()), some (some ()),
          (member_lookup (.cons enabled_key (.bool true) .nil) enabled_key).getD (.bool false)) ∧
    get_blender_connection (some (some ())) (.bool false)
      { connect_ok := false, write := fun _ => .connError, events := [] } false
      = create_new_connection false (.bool false) ∧
    get_blender_connection none (.bool false)
      { connect_ok := false, write := fun _ => .ok, events := [] } false
      = create_new_connection false (.bool false) ∧
    (create_new_connection false (.bool false) = (.failure, none, .bool false) ∧
      create_new_connection true (.bool false)
        = (.acquired (some ()), some (some ()), .bool false)) := by
  refine ⟨?_, ?_, ?_, ?_⟩
  · exact claim_C7.1 (some ())
      { connect_ok := true, write := fun _ => .ok,
        events := [.chunk [123, 34, 101, 110, 97, 98, 108, 101, 100, 34, 58, 32, 116, 114,
          117, 101, 125]] }
      (.cons enabled_key (.bool true) .nil) (some ()) (.bool false) true (by decide)
  · exact claim_C7.2.1 (some ())
      { connect_ok := false, write := fun _ => .connError, events := [] } (.bool false) false
      (by
        intro ms c2 h
        have he : send_command (some ()) polyhaven_status_cmd none
            { connect_ok := false, write := fun _ => .connError, events := [] }
            = (.connLost, none) := by decide
        rw [he] at h
        exact CmdResult.noConfusion ((Prod.mk.injEq _ _ _ _).mp h).1)
  · exact claim_C7.2.2.1 (.bool false)
      { connect_ok := false, write := fun _ => .ok, events := [] } false
  · exact claim_C7.2.2.2 (.bool false)

mutual
/-- Scanner fuel needed by `parse_value` on the serialisation of a value:
one unit per scanner call, summed over the recursion. -/
def needV : JValue → Nat
  | .null => 1
  | .bool _ => 1
  | .int _ => 1
  | .str _ => 1
  | .arr items => 1 + needI items
  | .obj ms => 1 + needM ms

/-- Fuel needed by `parse_array_first` on serialised items. -/
def needI : JItems → Nat
  | .nil => 1
  | .cons v rest => 1 + needV v + needT rest

/-- Fuel needed by `parse_array_tail` on serialised non-first items. -/
def needT : JItems → Nat
  | .nil => 1
  | .cons v rest => 1 + needV v + needT rest

/-- Fuel needed by `parse_object_first` on serialised members. -/
def needM : JMembers → Nat
  | .nil => 1
  | .cons _ v rest => 1 + needV v + needMT rest

/-- Fuel needed by `parse_object_tail` on serialised non-first members. -/
def needMT : JMembers → Nat
  | .nil => 1
  | .cons _ v rest => 1 + needV v + needMT rest
end

/-- Unicode scalar value: any code point of well-formed Unicode text,
i.e. everything below 0x110000 except the surrogate range 0xD800-0xDFFF.
This is the string alphabet of the round-trip law: it covers multi-line
source code, control characters, non-ASCII and astral characters —
everything a transmissible Python `str` can hold, since
`str.encode('utf-8')` (applied to every outgoing command) rejects
surrogates. -/
def unicode_scalar (c : Nat) : Bool :=
  c < 0x110000 && !(0xD800 ≤ c && c ≤ 0xDFFF)

/-- Keys of an object's members, in order. -/
def keysM : JMembers → List (List Nat)
  | .nil => []
  | .cons k _ rest => k :: keysM rest

mutual
/-- Well-formed parameter structure for the round-trip law: strings (and
keys) are arbitrary Unicode text — sequences of Unicode scalar values —
and object keys are distinct, so that a `JValue.obj` corresponds to an
actual Python dict, whose keys are unique. -/
def wfV : JValue → Bool
  | .null => true
  | .bool _ => true
  | .int _ => true
  | .str s => s.all unicode_scalar
  | .arr items => wfI items
  | .obj ms => wfM ms && decide (keysM ms).Nodup

/-- Well-formed array elements. -/
def wfI : JItems → Bool
  | .nil => true
  | .cons v rest => wfV v && wfI rest

/-- Well-formed object members. -/
def wfM : JMembers → Bool
  | .nil => true
  | .cons k v rest => k.all unicode_scalar && wfV v && wfM rest
end

/-- Every character escape is nonempty. -/
lemma escape_char_len (c : Nat) : 1 ≤ (escape_char c).length := by
  unfold escape_char
  split_ifs <;> simp

/-- A string body is at most as long as its escaped form. -/
lemma map_escape_len : ∀ s : List Nat, s.length ≤ ((s.map escape_char).flatten).length := by
  intro s
  induction s with
  | nil => simp
  | cons c s ih =>
    simp only [List.map_cons, List.flatten_cons, List.length_cons, List.length_append]
    have := escape_char_len c
    omega

/-- Array scanner at an immediate closing bracket: the empty element list. -/
lemma parse_array_first_close (f : Nat) (rest : List Nat) :
    parse_array_first (f + 1) (93 :: rest) = some (.nil, rest) := rfl

/-- Array tail scanner at the closing bracket. -/
lemma parse_array_tail_close (f : Nat) (rest : List Nat) :
    parse_array_tail (f + 1) (93 :: rest) = some (.nil, rest) := rfl

/-- Object scanner at an immediate closing brace: the empty member list. -/
lemma parse_object_first_close (f : Nat) (rest : List Nat) :
    parse_object_first (f + 1) (125 :: rest) = some (.nil, rest) := rfl

/-- Object tail scanner at the closing brace. -/
lemma parse_object_tail_close (f : Nat) (rest : List Nat) :
    parse_object_tail (f + 1) (125 :: rest) = some (.nil, rest) := rfl

